import Mathlib

/-!
# Verification of the PIco-ESP01-MP AT-command driver (src/esp.py)

A shallow embedding of the driver's protocol engine and connection-manager
layer, together with theorems settling the frozen claims about it.

Modelling conventions:
* MicroPython byte strings and text strings are both `List Char` (the traffic
  is ASCII).  `bytes.split(b"\r\n")` becomes `splitCRLF`, Python slices
  `b[-n:]` / `b[:-n]` become `lastN` / `dropLastN` (Python's truncating
  behaviour on short inputs is preserved by `Nat` subtraction).
* `int(s)` is `pyInt` (optional surrounding whitespace, optional sign, a
  nonempty digit run; `None` models the raised `ValueError`).  `s.strip(a)`
  for a single strip character removes every leading and trailing occurrence,
  exactly like Python's `strip`.
* A Python function that may `raise` returns a `PyResult`: `ok` for a normal
  return, `exn msg` for a raised exception carrying its message text.
* The wall clock of `time.time()` is a `Nat`; one iteration of the byte-poll
  loop in `send_at_cmd` costs one time unit, so a `timeout`-second deadline
  admits exactly `timeout` poll iterations, and `time.sleep(1)` advances the
  clock by one unit.
* On the MicroPython port this repository targets, `bytes.startswith(str)`
  compares the underlying character data (objstr methods accept either
  string-like type), so line 166's `reply.startswith("+CWJAP:")` is modelled
  as a plain character-sequence comparison.
-/

/-- A decoded reply field as the Python code produces it: `None`, an `int`,
or a `str`. -/
inductive PyVal : Type
  | none : PyVal
  | int : Int → PyVal
  | str : List Char → PyVal
deriving DecidableEq, Repr

/-- Result of running a Python function: a normal return or a raised
exception carrying its message text. -/
inductive PyResult (α : Type) : Type
  | ok : α → PyResult α
  | exn : List Char → PyResult α
deriving DecidableEq, Repr

/-- True exactly on the raised-exception result. -/
def PyResult.isExn {α : Type} : PyResult α → Bool
  | .ok _ => false
  | .exn _ => true

/-- Python slice `l[-n:]`: the last `n` elements (the whole list when it is
shorter than `n`, thanks to truncating `Nat` subtraction). -/
def lastN (n : Nat) (l : List Char) : List Char :=
  l.drop (l.length - n)

/-- Python slice `l[:-n]`: everything but the last `n` elements (empty when
the list is shorter than `n`). -/
def dropLastN (n : Nat) (l : List Char) : List Char :=
  l.take (l.length - n)

/-- `bytes.split(b"\r\n")`: split on the two-byte separator, keeping empty
pieces, exactly as Python does. -/
def splitCRLF : List Char → List (List Char)
  | [] => [[]]
  | '\r' :: '\n' :: rest => [] :: splitCRLF rest
  | c :: rest =>
    match splitCRLF rest with
    | [] => [[c]]
    | h :: t => (c :: h) :: t

/-- `bytes.split(b",")`: split on a comma, keeping empty pieces. -/
def splitComma : List Char → List (List Char)
  | [] => [[]]
  | ',' :: rest => [] :: splitComma rest
  | c :: rest =>
    match splitComma rest with
    | [] => [[c]]
    | h :: t => (c :: h) :: t

/-- Whitespace characters Python's `int()` ignores around a numeral. -/
def isSpaceCh (c : Char) : Bool :=
  (c == ' ') || (c == '\t') || (c == '\r') || (c == '\n')

/-- Drop leading and trailing whitespace, as `int()` does before parsing. -/
def pyStripWs (s : List Char) : List Char :=
  ((s.dropWhile isSpaceCh).reverse.dropWhile isSpaceCh).reverse

/-- Value of a nonempty digit run. -/
def digitsToNat (s : List Char) : Nat :=
  s.foldl (fun a c => a * 10 + (c.toNat - 48)) 0

/-- Sign-and-digits body of Python's `int()`. -/
def pyIntCore : List Char → Option Int
  | '-' :: ds =>
    if !ds.isEmpty && ds.all Char.isDigit then some (-(digitsToNat ds : Int)) else none
  | '+' :: ds =>
    if !ds.isEmpty && ds.all Char.isDigit then some ((digitsToNat ds : Int)) else none
  | ds =>
    if !ds.isEmpty && ds.all Char.isDigit then some ((digitsToNat ds : Int)) else none

/-- Python `int(s)` on the strings this protocol produces: strips surrounding
whitespace, then an optional sign followed by a nonempty digit run; `none`
models the raised `ValueError`. -/
def pyInt (s : List Char) : Option Int :=
  pyIntCore (pyStripWs s)

/-- Python `s.strip(chr(34))`: remove every leading and trailing quote
character. -/
def stripQuotes (s : List Char) : List Char :=
  ((s.dropWhile (fun c => c == '"')).reverse.dropWhile (fun c => c == '"')).reverse

/-- One field of a comma-separated reply tuple, per the shared rule of
`remote_AP` (lines 169-174) and `get_APs` (lines 245-250): try `int()`,
and on `ValueError` keep the quote-stripped string. -/
def parseField (s : List Char) : PyVal :=
  match pyInt s with
  | some n => PyVal.int n
  | none => PyVal.str (stripQuotes s)

/-- Decode a comma-separated field string into the ordered value list, the
rule both the AP-info and the scan-list decoders apply to each matching
line. -/
def decodeFields (s : List Char) : List PyVal :=
  (splitComma s).map parseField

/-- Marker `"AT+CWJAP="` identifying a join-AP command (lines 76, 88). -/
def cwjapEqL : List Char := "AT+CWJAP=".toList

/-- Marker `"AT+PING"` identifying a ping command (line 91). -/
def pingL : List Char := "AT+PING".toList

/-- Terminator bytes `b"OK\r\n"` (line 72). -/
def okCrlfL : List Char := "OK\r\n".toList

/-- Terminator bytes `b"ERROR\r\n"` (line 74). -/
def errorCrlfL : List Char := "ERROR\r\n".toList

/-- Marker `b"WIFI GOT IP\r\n"` (lines 77, 88). -/
def gotIpL : List Char := "WIFI GOT IP\r\n".toList

/-- Marker `b"WIFI CONNECTED\r\n"` (line 80). -/
def connectedL : List Char := "WIFI CONNECTED\r\n".toList

/-- Marker `b"ERR CODE:"` (line 82). -/
def errCodeL : List Char := "ERR CODE:".toList

/-- Line marker `b"STATUS:"` scanned by `status` (line 151). -/
def statusMarkL : List Char := "STATUS:".toList

/-- Line marker `"+CWJAP:"` scanned by `remote_AP` (line 166). -/
def cwjapMarkL : List Char := "+CWJAP:".toList

/-- Line marker `b"+CWMODE:"` scanned by the `mode` getter (line 184). -/
def cwmodeMarkL : List Char := "+CWMODE:".toList

/-- Line marker `b"+CWLAP:("` scanned by `get_APs` (line 243). -/
def cwlapMarkL : List Char := "+CWLAP:(".toList

/-- Command text `"AT+CIPSTATUS"` issued by `status` (line 149). -/
def cipstatusL : List Char := "AT+CIPSTATUS".toList

/-- Command text `"AT+CWJAP?"` issued by `remote_AP` (line 163). -/
def cwjapQL : List Char := "AT+CWJAP?".toList

/-- Command text `"AT+CWMODE?"` issued by the `mode` getter (line 182). -/
def cwmodeQL : List Char := "AT+CWMODE?".toList

/-- The message of the exception `send_at_cmd` raises when every retry is
exhausted: `"No OK response to " + at_cmd` (line 100). -/
def noOkMsg (at_cmd : List Char) : List Char :=
  "No OK response to ".toList ++ at_cmd

/-- Reply terminators distinguished by the spec's `ReplyOutcome` refinement:
{OK, Error, WifiConnected, WifiGotIp, ErrCode}.  `send_at_cmd` has three
success return sites; the tag records which one fired (line 89 is the
WIFI-GOT-IP return, line 92 the ping-ERROR return, line 98 the stripped-OK
return). -/
inductive Terminator : Type
  | ok : Terminator
  | error : Terminator
  | wifiConnected : Terminator
  | wifiGotIp : Terminator
  | errCode : Terminator
deriving DecidableEq, Repr

/-- Outcome of `send_at_cmd`: a returned reply (tagged with the return site's
terminator) or the raised exception. -/
inductive ReplyOutcome : Type
  | success : List Char → Terminator → ReplyOutcome
  | exn : List Char → ReplyOutcome
deriving DecidableEq, Repr

/-- The byte transport (`self._uart` plus the `time` module): whether a byte
is available at an instant, and which byte a read at that instant yields. -/
structure Transport : Type where
  avail : Nat → Bool
  byteAt : Nat → Char

/-- Python's `needle in hay` on byte strings: the needle occurs as a
contiguous substring. -/
def containsSub (needle : List Char) : List Char → Bool
  | [] => needle.isEmpty
  | c :: rest => needle.isPrefixOf (c :: rest) || containsSub needle rest

/-- The body of the poll loop's break tests (lines 72-83), evaluated after a
byte is appended: trailing `OK\r\n`, trailing `ERROR\r\n`, then the
command-dependent marker (`WIFI GOT IP` for a join-AP command, otherwise
`WIFI CONNECTED`), then `ERR CODE:` anywhere. -/
def breakCond (at_cmd resp : List Char) : Bool :=
  (lastN 4 resp == okCrlfL)
  || (lastN 7 resp == errorCrlfL)
  || (if containsSub cwjapEqL at_cmd then containsSub gotIpL resp
      else containsSub connectedL resp)
  || containsSub errCodeL resp

/-- The inner accumulation loop of `send_at_cmd` (lines 69-83): while the
deadline has not passed, read one byte if available and re-test the break
conditions.  `fuel` is the number of clock units left until the deadline;
each iteration costs one unit.  Returns the accumulated buffer and the time
at which the loop exits. -/
def readLoop (tr : Transport) (at_cmd : List Char) :
    List Char → Nat → Nat → List Char × Nat
  | resp, t, 0 => (resp, t)
  | resp, t, fuel + 1 =>
    if tr.avail t then
      let resp2 := resp ++ [tr.byteAt t]
      if breakCond at_cmd resp2 then (resp2, t + 1)
      else readLoop tr at_cmd resp2 (t + 1) fuel
    else readLoop tr at_cmd resp (t + 1) fuel

/-- `send_at_cmd` (lines 56-100): for each retry, run the poll loop, then
apply the acceptance checks in source order: a join-AP command whose buffer
contains `WIFI GOT IP\r\n` returns the full buffer (line 89); a ping command
whose buffer contains `ERROR\r\n` returns the full buffer (line 92); a buffer
whose last four bytes are `OK\r\n` returns the buffer with them stripped
(line 98); anything else sleeps one unit and retries (lines 95-96); exhausted
retries raise `"No OK response to " + at_cmd` (line 100).  The second
component is the clock value when the call finishes. -/
def send_at_cmd (tr : Transport) (at_cmd : List Char) (timeout : Nat) :
    Nat → Nat → ReplyOutcome × Nat
  | 0, t => (.exn (noOkMsg at_cmd), t)
  | retriesLeft + 1, t =>
    let resp := (readLoop tr at_cmd [] t timeout).1
    let t2 := (readLoop tr at_cmd [] t timeout).2
    if containsSub cwjapEqL at_cmd && containsSub gotIpL resp then
      (.success resp .wifiGotIp, t2)
    else if containsSub pingL at_cmd && containsSub errorCrlfL resp then
      (.success resp .error, t2)
    else if lastN 4 resp == okCrlfL then
      (.success (dropLastN 4 resp) .ok, t2)
    else
      send_at_cmd tr at_cmd timeout retriesLeft (t2 + 1)

/-- A transport that plays back a fixed byte script, one byte per clock unit
from instant 0, then falls silent. -/
def scriptTransport (bs : List Char) : Transport :=
  ⟨fun t => decide (t < bs.length), fun t => bs.getD t ' '⟩

/-- A transport on which no byte is ever available. -/
def silentTransport : Transport :=
  ⟨fun _ => false, fun _ => ' '⟩

/-- A transport that emits the bytes of `ERROR\r\n` forever, cyclically, one
per clock unit. -/
def loopErrTransport : Transport :=
  ⟨fun _ => true, fun t => errorCrlfL.getD (t % 7) ' '⟩

/-- The line scan of the `status` property (lines 150-153): the first line
with the `STATUS:` marker yields `int(reply[7:8])` (a raised `ValueError` if
the slice is not a digit); when no line matches, the property returns
`None` — it does not raise. -/
def statusScanLoop : List (List Char) → PyResult (Option Int)
  | [] => .ok Option.none
  | r :: rest =>
    if statusMarkL.isPrefixOf r then
      match pyInt ((r.drop 7).take 1) with
      | some n => .ok (some n)
      | Option.none => .exn "ValueError".toList
    else statusScanLoop rest

/-- The `status` property's decoding of one accepted reply payload: split on
CR LF and scan for the `STATUS:` line. -/
def statusOfReply (payload : List Char) : PyResult (Option Int) :=
  statusScanLoop (splitCRLF payload)

/-- The line scan of the `mode` getter (lines 183-186): the first line with
the `+CWMODE:` marker yields `int(reply[8:])`; when no line matches, a
`RuntimeError` is raised. -/
def modeScanLoop : List (List Char) → PyResult Int
  | [] => .exn "Bad response to CWMODE?".toList
  | r :: rest =>
    if cwmodeMarkL.isPrefixOf r then
      match pyInt (r.drop 8) with
      | some n => .ok n
      | Option.none => .exn "ValueError".toList
    else modeScanLoop rest

/-- The line scan of `remote_AP` (lines 165-178): the first line with the
`+CWJAP:` marker has its remainder comma-split and field-decoded; when no
line matches, the four-field null record is returned (line 178). -/
def scanCWJAP : List (List Char) → List PyVal
  | [] => [PyVal.none, PyVal.none, PyVal.none, PyVal.none]
  | l :: rest =>
    if cwjapMarkL.isPrefixOf l then decodeFields (l.drop 7)
    else scanCWJAP rest

/-- The line scan of `get_APs` (lines 242-251): every line with the
`+CWLAP:(` marker contributes `line[8:-1]` comma-split and field-decoded, in
emission order. -/
def scanCWLAP : List (List Char) → List (List PyVal)
  | [] => []
  | l :: rest =>
    if cwlapMarkL.isPrefixOf l then
      decodeFields (dropLastN 1 (l.drop 8)) :: scanCWLAP rest
    else scanCWLAP rest

/-- The connection-manager layer drives the command engine one command at a
time; an oracle maps each issued command text to the `send_at_cmd` result it
produces in the module's current state (the returned payload, or the raised
exception). -/
structure ATOracle : Type where
  reply : List Char → PyResult (List Char)

/-- The `status` property (lines 146-153): issue `AT+CIPSTATUS`, decode the
reply.  Second component: the commands issued, in order. -/
def statusRun (o : ATOracle) : PyResult (Option Int) × List (List Char) :=
  match o.reply cipstatusL with
  | .exn m => (.exn m, [cipstatusL])
  | .ok r => (statusOfReply r, [cipstatusL])

/-- The `mode` getter (lines 180-186): issue `AT+CWMODE?`, decode the
reply.  Second component: the commands issued, in order. -/
def modeRun (o : ATOracle) : PyResult Int × List (List Char) :=
  match o.reply cwmodeQL with
  | .exn m => (.exn m, [cwmodeQL])
  | .ok r => (modeScanLoop (splitCRLF r), [cwmodeQL])

/-- The `remote_AP` property (lines 155-178): read `status` (which issues
`AT+CIPSTATUS`); if it is not `STATUS_APCONNECTED = 2` return `[None] * 4`
at once; otherwise issue `AT+CWJAP?` and scan its lines.  Second component:
the commands issued, in order. -/
def remote_AP (o : ATOracle) : PyResult (List PyVal) × List (List Char) :=
  match statusRun o with
  | (.exn m, tr) => (.exn m, tr)
  | (.ok st, tr) =>
    if st ≠ some 2 then
      (.ok [PyVal.none, PyVal.none, PyVal.none, PyVal.none], tr)
    else
      match o.reply cwjapQL with
      | .exn m => (.exn m, tr ++ [cwjapQL])
      | .ok r => (.ok (scanCWJAP (splitCRLF r)), tr ++ [cwjapQL])

/-- The attribute names `__init__` (lines 14-40) sets on an `ESP` instance:
`_debug` and `_uart`, and nothing else.  In particular `_initialized` is
never set, and the class defines no `begin` or `at_response` method. -/
def espInstanceAttrs : List (List Char) :=
  ["_debug".toList, "_uart".toList]

/-- The `mode` setter (lines 188-195).  Its first statement reads
`self._initialized`, an attribute `__init__` never sets, so every call
raises `AttributeError` before the `(1, 2, 3)` validation or the
(nonexistent) `at_response` call can run; were the guard attribute somehow
present, the following statements would still hit undefined names.  Second
component: the commands issued (always none). -/
def modeSetter (m : Int) : PyResult Unit × List (List Char) :=
  if espInstanceAttrs.contains ("_initialized".toList) then
    if m = 1 ∨ m = 2 ∨ m = 3 then
      (.exn "AttributeError: at_response".toList, [])
    else
      (.exn "Invalid Mode".toList, [])
  else
    (.exn "AttributeError: _initialized".toList, [])

/-- Python `router[0] == ssid` where `router[0]` is a decoded field and
`ssid` a text string: equal only when the field is a string with the same
characters (`int == str` and `None == str` are `False`). -/
def pyEqStr : PyVal → List Char → Bool
  | .str s, t => decide (s = t)
  | _, _ => false

/-- The join command text `'AT+CWJAP="' + ssid + '","' + password + '"'`
built at lines 217-219 (quote characters in the credentials are the
caller's problem, exactly as in the source). -/
def joinCmd (ssid pw : List Char) : List Char :=
  "AT+CWJAP=".toList ++ ['"'] ++ ssid ++ "\",\"".toList ++ pw ++ ['"']

/-- `join_ap` (lines 206-227): read the `mode` getter and, when it is not
`MODE_STATION = 1`, run the `mode` setter (which raises, see `modeSetter`);
read `remote_AP` and return at once when the first field equals `ssid`;
otherwise issue the join command once (the `for` loop body ends in an
unconditional `return`) — the two marker checks only print.  Second
component: the commands issued, in order. -/
def join_ap (o : ATOracle) (ssid pw : List Char) : PyResult Unit × List (List Char) :=
  match modeRun o with
  | (.exn m, tr) => (.exn m, tr)
  | (.ok md, tr) =>
    match (if md = 1 then ((.ok () : PyResult Unit), ([] : List (List Char)))
           else modeSetter 1) with
    | (.exn m, ts) => (.exn m, tr ++ ts)
    | (.ok _, ts) =>
      match remote_AP o with
      | (.exn m, t2) => (.exn m, tr ++ ts ++ t2)
      | (.ok router, t2) =>
        if (match router with
            | [] => false
            | x :: _ => pyEqStr x ssid) then
          (.ok (), tr ++ ts ++ t2)
        else
          match o.reply (joinCmd ssid pw) with
          | .exn m => (.exn m, tr ++ ts ++ t2 ++ [joinCmd ssid pw])
          | .ok _ => (.ok (), tr ++ ts ++ t2 ++ [joinCmd ssid pw])

/-- Transport playing back a join reply that reports `WIFI GOT IP` without
any trailing `OK`. -/
def gotIpScriptTr : Transport := scriptTransport gotIpL

/-- A concrete join-AP command text. -/
def joinCmdEx : List Char := "AT+CWJAP=\"a\",\"b\"".toList

/-- Transport playing back `+CWMODE:1\r\nOK\r\n`. -/
def cwmodeScriptTr : Transport := scriptTransport "+CWMODE:1\r\nOK\r\n".toList

/-- Transport playing back a bare `ERROR\r\n` reply, then silence. -/
def errScriptTr : Transport := scriptTransport errorCrlfL

/-- A concrete ping command text. -/
def pingCmdEx : List Char := "AT+PING=\"8.8.8.8\"".toList

/-- A plain command text used in the failure scenarios. -/
def atTestL : List Char := "AT+TEST".toList

/-- The bare attention command text. -/
def atL : List Char := "AT".toList

/-- C1: for a join-AP command (text containing `AT+CWJAP=`), whenever the
buffer the poll loop accumulates contains `WIFI GOT IP\r\n` anywhere,
`send_at_cmd` returns that full unmodified buffer through the WIFI-GOT-IP
return site, with no further condition on `OK` or `ERROR` appearing. -/
theorem cwjap_gotip_full_buffer (tr : Transport) (at_cmd : List Char)
    (timeout r t : Nat)
    (hj : containsSub cwjapEqL at_cmd = true)
    (hg : containsSub gotIpL (readLoop tr at_cmd [] t timeout).1 = true) :
    (send_at_cmd tr at_cmd timeout (r + 1) t).1 =
      ReplyOutcome.success (readLoop tr at_cmd [] t timeout).1
        Terminator.wifiGotIp := by
  simp only [send_at_cmd, hj, hg, Bool.and_self, if_true]

/-- C1 witness: a concrete join command against a transport replying
`WIFI GOT IP\r\n` alone. -/
theorem cwjap_gotip_full_buffer_wit :
    (send_at_cmd gotIpScriptTr joinCmdEx 20 3 0).1 =
      ReplyOutcome.success (readLoop gotIpScriptTr joinCmdEx [] 0 20).1
        Terminator.wifiGotIp :=
  cwjap_gotip_full_buffer gotIpScriptTr joinCmdEx 20 2 0 (by decide) (by decide)

/-- C2: for a command that is neither a join-AP nor a ping command, whenever
the accumulated buffer's last four bytes are `OK\r\n`, `send_at_cmd` returns
the buffer with exactly those four bytes stripped. -/
theorem ok_suffix_stripped (tr : Transport) (at_cmd : List Char)
    (timeout r t : Nat)
    (hnj : containsSub cwjapEqL at_cmd = false)
    (hnp : containsSub pingL at_cmd = false)
    (hok : (lastN 4 (readLoop tr at_cmd [] t timeout).1 == okCrlfL) = true) :
    (send_at_cmd tr at_cmd timeout (r + 1) t).1 =
      ReplyOutcome.success (dropLastN 4 (readLoop tr at_cmd [] t timeout).1)
        Terminator.ok := by
  simp only [send_at_cmd, hnj, hnp, hok, Bool.false_and, if_false, if_true,
    Bool.false_eq_true]

/-- C2 witness: `AT+CWMODE?` against a transport replying
`+CWMODE:1\r\nOK\r\n`; the payload is `+CWMODE:1\r\n`. -/
theorem ok_suffix_stripped_wit :
    (send_at_cmd cwmodeScriptTr cwmodeQL 20 3 0).1 =
      ReplyOutcome.success (dropLastN 4 (readLoop cwmodeScriptTr cwmodeQL [] 0 20).1)
        Terminator.ok :=
  ok_suffix_stripped cwmodeScriptTr cwmodeQL 20 2 0 (by decide) (by decide) (by decide)

/-- C3: for a ping command (text containing `AT+PING`) that is not a join-AP
command, whenever the accumulated buffer contains `ERROR\r\n`, `send_at_cmd`
returns the full buffer through the ping-ERROR return site — a success
value, not a retry and not the exhausted-retries exception. -/
theorem ping_error_success (tr : Transport) (at_cmd : List Char)
    (timeout r t : Nat)
    (hnj : containsSub cwjapEqL at_cmd = false)
    (hp : containsSub pingL at_cmd = true)
    (he : containsSub errorCrlfL (readLoop tr at_cmd [] t timeout).1 = true) :
    (send_at_cmd tr at_cmd timeout (r + 1) t).1 =
      ReplyOutcome.success (readLoop tr at_cmd [] t timeout).1
        Terminator.error := by
  simp only [send_at_cmd, hnj, hp, he, Bool.false_and, Bool.and_self, if_false,
    if_true, Bool.false_eq_true]

/-- C3 witness: a concrete ping command against a transport replying a bare
`ERROR\r\n`. -/
theorem ping_error_success_wit :
    (send_at_cmd errScriptTr pingCmdEx 20 3 0).1 =
      ReplyOutcome.success (readLoop errScriptTr pingCmdEx [] 0 20).1
        Terminator.error :=
  ping_error_success errScriptTr pingCmdEx 20 2 0 (by decide) (by decide) (by decide)

/-- On the silent transport no byte ever arrives, so the poll loop runs its
full fuel and leaves the buffer empty, one clock unit per iteration. -/
theorem readLoop_silent (at_cmd resp : List Char) (fuel : Nat) :
    ∀ t, readLoop silentTransport at_cmd resp t fuel = (resp, t + fuel) := by
  induction fuel with
  | zero => intro t; rfl
  | succ n ih =>
    intro t
    show readLoop silentTransport at_cmd resp (t + 1) n = (resp, t + (n + 1))
    rw [ih (t + 1)]
    have h : t + 1 + n = t + (n + 1) := by ring
    rw [h]

/-- No nonempty marker occurs in the empty buffer. -/
theorem containsSub_gotIp_nil : containsSub gotIpL [] = false := by decide

/-- No nonempty marker occurs in the empty buffer. -/
theorem containsSub_error_nil : containsSub errorCrlfL [] = false := by decide

/-- The empty buffer does not end in `OK\r\n`. -/
theorem lastN_nil_ne_ok : (lastN 4 ([] : List Char) == okCrlfL) = false := by decide

/-- C4 (amended): on a transport that never makes a byte available,
`send_at_cmd` raises the same generic `"No OK response to " + at_cmd`
exception used when retries end on an unacceptable terminator, and it does
so exactly at `t + retries * (timeout + 1)`: every attempt waits out its
full deadline and is followed by a one-unit backoff sleep — including after
the final attempt.  In particular with `retries = 3`, `timeout = 1` the
failure surfaces at time 6, never before the third deadline. -/
theorem silent_timeout_behavior (at_cmd : List Char) (timeout : Nat) :
    ∀ (r t : Nat), send_at_cmd silentTransport at_cmd timeout r t =
      (ReplyOutcome.exn (noOkMsg at_cmd), t + r * (timeout + 1)) := by
  intro r
  induction r with
  | zero =>
    intro t
    show (ReplyOutcome.exn (noOkMsg at_cmd), t) = _
    rw [Nat.zero_mul, Nat.add_zero]
  | succ n ih =>
    intro t
    simp only [send_at_cmd, readLoop_silent, containsSub_gotIp_nil,
      containsSub_error_nil, lastN_nil_ne_ok, Bool.and_false, if_false,
      Bool.false_eq_true]
    rw [ih (t + timeout + 1)]
    have h : t + timeout + 1 + n * (timeout + 1) = t + (n + 1) * (timeout + 1) := by
      ring
    rw [h]

/-- C4 counterexample: with `retries = 3`, `timeout = 1` and a byte-starved
transport, the returned value is identical to the one produced when every
attempt ends on an `ERROR` terminator — there is no timeout outcome distinct
from the protocol-error outcome, both are the same raised exception — and
the call finishes at time 6 (three deadlines plus three backoff sleeps), not
at the claimed three deadlines with only the two in-between backoffs. -/
theorem timeout_claim_cex :
    (send_at_cmd silentTransport atL 1 3 0).1 =
      (send_at_cmd errScriptTr atL 20 3 0).1 ∧
    (send_at_cmd silentTransport atL 1 3 0).2 = 6 := by
  constructor
  · decide
  · decide

/-- C5 (amended): whenever `send_at_cmd` ends in the raised exception — all
retries exhausted without an accepted reply — the exception's payload is
exactly `"No OK response to " + at_cmd`: the command text, not the last
attempt's reply buffer. -/
theorem exhausted_attempts_msg (tr : Transport) (at_cmd : List Char)
    (timeout : Nat) : ∀ (r t : Nat) (m : List Char),
    (send_at_cmd tr at_cmd timeout r t).1 = ReplyOutcome.exn m →
    m = noOkMsg at_cmd := by
  intro r
  induction r with
  | zero =>
    intro t m h
    exact (ReplyOutcome.exn.inj h).symm
  | succ n ih =>
    intro t m h
    simp only [send_at_cmd] at h
    split at h
    · simp at h
    · split at h
      · simp at h
      · split at h
        · simp at h
        · exact ih _ _ h

/-- C5 witness: a run in which each attempt terminates on `ERROR` (then
silence) and retries are exhausted; the raised exception's payload is the
command text. -/
theorem exhausted_attempts_msg_wit :
    (send_at_cmd errScriptTr atTestL 20 3 0).1 =
      ReplyOutcome.exn (noOkMsg atTestL) := by
  have h : (send_at_cmd errScriptTr atTestL 20 3 0).1 =
      ReplyOutcome.exn ("No OK response to AT+TEST".toList) := by decide
  rw [h, exhausted_attempts_msg errScriptTr atTestL 20 3 0
    ("No OK response to AT+TEST".toList) h]

/-- C5 counterexample: against a transport that repeats `ERROR\r\n` forever,
the three attempts end at times 7, 21 and 36; the last attempt's buffer
(accumulated from time 22) is nonempty, yet the exception payload is the
command text `"No OK response to AT+TEST"`, not that buffer — the caller
never receives the buffer content. -/
theorem protocol_error_payload_cex :
    (readLoop loopErrTransport atTestL [] 0 20).2 = 7 ∧
    (readLoop loopErrTransport atTestL [] 8 20).2 = 21 ∧
    (send_at_cmd loopErrTransport atTestL 20 3 0).1 =
      ReplyOutcome.exn (noOkMsg atTestL) ∧
    (readLoop loopErrTransport atTestL [] 22 20).1 ≠ ([] : List Char) ∧
    noOkMsg atTestL ≠ (readLoop loopErrTransport atTestL [] 22 20).1 := by
  refine ⟨by decide, by decide, by decide, by decide, by decide⟩

/-- C6 (amended): when no line of an accepted status reply carries the
`STATUS:` marker, the `status` property returns `None` — a silently returned
default value, not a raised error. -/
theorem status_missing_returns_none (payload : List Char)
    (h : (splitCRLF payload).all (fun r => !(statusMarkL.isPrefixOf r)) = true) :
    statusOfReply payload = PyResult.ok Option.none := by
  unfold statusOfReply
  generalize hl : splitCRLF payload = ls at h ⊢
  clear hl
  induction ls with
  | nil => rfl
  | cons r rest ih =>
    simp only [List.all_cons, Bool.and_eq_true, Bool.not_eq_true'] at h
    simp only [statusScanLoop, h.1, Bool.false_eq_true, if_false]
    exact ih (by simpa using h.2)

/-- C6 witness: a reply with no `STATUS:` line. -/
theorem status_missing_returns_none_wit :
    statusOfReply "garbage\r\n".toList = PyResult.ok Option.none :=
  status_missing_returns_none "garbage\r\n".toList (by decide)

/-- C6 counterexample: on a reply with no `STATUS:` line the decoder's
result is the normal return `ok None`, not a raised error of any kind — the
claimed surfaced `DecodeError` does not happen. -/
theorem status_missing_cex :
    statusOfReply "garbage\r\n".toList = PyResult.ok Option.none ∧
    (statusOfReply "garbage\r\n".toList).isExn = false := by
  refine ⟨by decide, by decide⟩

/-- `status` always issues exactly the one command `AT+CIPSTATUS`. -/
theorem statusRun_trace (o : ATOracle) : (statusRun o).2 = [cipstatusL] := by
  unfold statusRun
  cases h : o.reply cipstatusL <;> simp [h]

/-- C7 (amended): whenever the decoded status is not `APCONNECTED = 2`,
`remote_AP` returns the four-field null record and the only command it has
issued is the status query `AT+CIPSTATUS` — in particular it never issues
the AP-info command `AT+CWJAP?`.  (The claim's stronger reading, that no
command at all is issued, is refuted by the counterexample.) -/
theorem remote_ap_null_record (o : ATOracle) (st : Option Int)
    (h1 : (statusRun o).1 = PyResult.ok st) (h2 : st ≠ some 2) :
    remote_AP o =
      (PyResult.ok [PyVal.none, PyVal.none, PyVal.none, PyVal.none],
        [cipstatusL]) := by
  have ht := statusRun_trace o
  unfold remote_AP
  cases hq : statusRun o with
  | mk res tr =>
    rw [hq] at h1 ht
    dsimp only at h1 ht
    subst h1
    subst ht
    dsimp only
    rw [if_pos h2]

/-- Oracle of a module whose status reply is `STATUS:5` (not connected). -/
def oracle5 : ATOracle :=
  ⟨fun c => if c = cipstatusL then .ok "STATUS:5\r\n".toList
            else .exn "unused".toList⟩

/-- C7 witness: with status 5, `remote_AP` yields the null record and a
trace of exactly the status query. -/
theorem remote_ap_null_record_wit :
    remote_AP oracle5 =
      (PyResult.ok [PyVal.none, PyVal.none, PyVal.none, PyVal.none],
        [cipstatusL]) :=
  remote_ap_null_record oracle5 (some 5) (by decide) (by decide)

/-- C7 counterexample: with status 5 the premise of the claim holds (status
is not `ApConnected`), yet `remote_AP`'s command trace is nonempty — it has
issued the status query on the transport, so "no command issue at all" is
false. -/
theorem remote_ap_issues_status_cex :
    (statusRun oracle5).1 = PyResult.ok (some 5) ∧
    (remote_AP oracle5).2 ≠ ([] : List (List Char)) := by
  refine ⟨by decide, by decide⟩

/-- The `mode` getter always issues exactly the one command `AT+CWMODE?`. -/
theorem modeRun_trace (o : ATOracle) : (modeRun o).2 = [cwmodeQL] := by
  unfold modeRun
  cases h : o.reply cwmodeQL <;> simp [h]

/-- `remote_AP` issues either the status query alone or the status query
followed by the AP-info query — nothing else, in particular never a join
command. -/
theorem remote_AP_trace_cases (o : ATOracle) :
    (remote_AP o).2 = [cipstatusL] ∨
    (remote_AP o).2 = [cipstatusL, cwjapQL] := by
  have ht := statusRun_trace o
  unfold remote_AP
  cases hq : statusRun o with
  | mk res tr =>
    rw [hq] at ht
    dsimp only at ht
    subst ht
    cases res with
    | exn m => exact Or.inl rfl
    | ok st =>
      dsimp only
      by_cases h2 : st ≠ some 2
      · rw [if_pos h2]
        exact Or.inl rfl
      · rw [if_neg h2]
        cases hr : o.reply cwjapQL <;> exact Or.inr rfl

/-- C8 (amended): when the module already reports mode `Station` and a
current AP whose first field equals `ssid`, `join_ap` returns at once and
its transport traffic is exactly the mode query plus `remote_AP`'s queries —
read-only commands — and contains no join command (`AT+CWJAP=`) at all. -/
theorem join_idempotent_no_join_write (o : ATOracle) (ssid pw : List Char)
    (rest : List PyVal)
    (hm : (modeRun o).1 = PyResult.ok 1)
    (hr : (remote_AP o).1 = PyResult.ok (PyVal.str ssid :: rest)) :
    join_ap o ssid pw = (PyResult.ok (), (modeRun o).2 ++ (remote_AP o).2) ∧
    ((modeRun o).2 ++ (remote_AP o).2).all
      (fun c => !(containsSub cwjapEqL c)) = true := by
  have hqm2 : modeRun o = (PyResult.ok 1, (modeRun o).2) := by rw [← hm]
  have hqr2 : remote_AP o = (PyResult.ok (PyVal.str ssid :: rest),
      (remote_AP o).2) := by rw [← hr]
  constructor
  · rw [join_ap, hqm2, hqr2]
    simp [pyEqStr]
  · rw [modeRun_trace o]
    rcases remote_AP_trace_cases o with h2 | h2 <;> rw [h2] <;> decide

/-- Oracle of a module in station mode, associated to `myssid`: the mode
query reports 1, the status query reports 2, and the AP-info query reports
`+CWJAP:"myssid","aa:bb",1,-50`. -/
def oracle8 : ATOracle :=
  ⟨fun c =>
    if c = cwmodeQL then .ok "+CWMODE:1\r\n".toList
    else if c = cipstatusL then .ok "STATUS:2\r\n".toList
    else if c = cwjapQL then .ok "+CWJAP:\"myssid\",\"aa:bb\",1,-50\r\n".toList
    else .exn "unused".toList⟩

/-- The SSID the `oracle8` module reports. -/
def myssidL : List Char := "myssid".toList

/-- A password for the join examples. -/
def pwExL : List Char := "pw".toList

/-- The remaining decoded AP-info fields `oracle8` reports. -/
def restEx : List PyVal :=
  [PyVal.str "aa:bb".toList, PyVal.int 1, PyVal.int (-50)]

/-- C8 witness: a call to `join_ap` with the module already associated to
the requested SSID (any such call — the oracle is the module's stable state,
so this covers the second of two consecutive calls). -/
theorem join_idempotent_no_join_write_wit :
    join_ap oracle8 myssidL pwExL =
      (PyResult.ok (), (modeRun oracle8).2 ++ (remote_AP oracle8).2) ∧
    ((modeRun oracle8).2 ++ (remote_AP oracle8).2).all
      (fun c => !(containsSub cwjapEqL c)) = true :=
  join_idempotent_no_join_write oracle8 myssidL pwExL restEx
    (by decide) (by decide)

/-- C8 counterexample: the module already reports
`remote_ap().ssid = "myssid"`, yet a further `join_ap` call issues a
nonempty command sequence (the mode, status and AP-info queries, each a
transport write) — the claimed "zero additional transport writes" is
false. -/
theorem join_second_call_writes_cex :
    (remote_AP oracle8).1 = PyResult.ok (PyVal.str myssidL :: restEx) ∧
    (join_ap oracle8 myssidL pwExL).2 ≠ ([] : List (List Char)) := by
  refine ⟨by decide, by decide⟩

/-- C9: every call of the `mode` setter — with a valid mode 1, 2 or 3 just
as with an invalid one — raises `AttributeError` on its first statement's
`self._initialized` lookup (an attribute `__init__` never sets) and issues
no command whatsoever: neither the claimed `AT+CWMODE=` write for valid
modes nor the claimed `Invalid Mode` rejection for invalid ones can ever be
reached. -/
theorem mode_setter_attr_error (m : Int) :
    modeSetter m =
      (PyResult.exn "AttributeError: _initialized".toList,
        ([] : List (List Char))) := rfl

/-- C10: decoding the field string `5,-67,"aa:bb:cc:dd:ee:ff",1` yields
`[5, -67, "aa:bb:cc:dd:ee:ff", 1]` — integers parsed where possible, the
quoted field kept as a string with its surrounding quotes stripped — and the
AP-info and scan-list decoders both produce exactly this sequence from a
matching reply line. -/
theorem field_decoding_example :
    decodeFields "5,-67,\"aa:bb:cc:dd:ee:ff\",1".toList =
      [PyVal.int 5, PyVal.int (-67), PyVal.str "aa:bb:cc:dd:ee:ff".toList,
        PyVal.int 1] ∧
    scanCWJAP ["+CWJAP:5,-67,\"aa:bb:cc:dd:ee:ff\",1".toList] =
      [PyVal.int 5, PyVal.int (-67), PyVal.str "aa:bb:cc:dd:ee:ff".toList,
        PyVal.int 1] ∧
    scanCWLAP ["+CWLAP:(5,-67,\"aa:bb:cc:dd:ee:ff\",1)".toList] =
      [[PyVal.int 5, PyVal.int (-67), PyVal.str "aa:bb:cc:dd:ee:ff".toList,
        PyVal.int 1]] := by
  refine ⟨by decide, by decide, by decide⟩
